import Mathlib

/-!
Verification development for `cloudbeds_occupancy_sync.py`, a script that
scrapes four occupancy metrics from a Cloudbeds dashboard through the Airtop
browser-automation service and PATCHes them into one Airtable record.

The Python source is shallowly embedded below.  Remote calls (Airtop session
creation, profile save, window creation, page queries, session termination,
and the Airtable PATCH response) are inputs of the model, supplied through an
environment record; the script's own control flow, string handling and
validation logic are translated directly from the source.  `json.loads` from
the Python standard library is modelled by an executable recursive-descent
parser covering the JSON fragment the script can encounter (objects with
string keys, nested objects, strings, integers, booleans, null); array values
and non-integer numerals are outside the modelled fragment.
-/

/-- JSON values as produced by the modelled `json.loads`.  Objects keep their
member list in source order; lookup follows Python dict semantics (a repeated
key keeps the last value). -/
inductive Json where
  | null : Json
  | bool (b : Bool) : Json
  | num (n : Int) : Json
  | str (s : String) : Json
  | obj (kvs : List (String × Json)) : Json

/-- The character `\x7b` (left curly brace). -/
def lbraceChar : Char := Char.ofNat 123

/-- The character `\x7d` (right curly brace). -/
def rbraceChar : Char := Char.ofNat 125

/-- The double-quote character. -/
def dquoteChar : Char := Char.ofNat 34

/-- The single-quote character. -/
def squoteChar : Char := Char.ofNat 39

/-- The backslash character. -/
def backslashChar : Char := Char.ofNat 92

/-- ASCII whitespace stripped by Python's `str.strip()` with no argument:
space, tab, newline, carriage return, vertical tab, form feed. -/
def isPyWs (c : Char) : Bool :=
  c = ' ' || c = '\t' || c = '\n' || c = '\r' || c.toNat = 11 || c.toNat = 12

/-- Whitespace accepted between JSON tokens (RFC 8259): space, tab, newline,
carriage return. -/
def isJsonWs (c : Char) : Bool :=
  c = ' ' || c = '\t' || c = '\n' || c = '\r'

/-- The characters stripped by the quote-trimming `str.strip` call at line
224 of the source: double quote and single quote. -/
def isQuoteChar (c : Char) : Bool :=
  c = dquoteChar || c = squoteChar

/-- Drop the longest suffix whose characters all satisfy `p` (the tail half of
Python's `str.strip`). -/
def dropTrailingWhile (p : Char → Bool) : List Char → List Char
  | [] => []
  | c :: cs =>
    match dropTrailingWhile p cs with
    | [] => if p c then [] else [c]
    | c2 :: cs2 => c :: c2 :: cs2

/-- Python `str.strip(chars)`: drop characters satisfying `p` from both ends. -/
def pyStripGeneral (p : Char → Bool) (s : String) : String :=
  String.mk (dropTrailingWhile p (s.data.dropWhile p))

/-- Python `str.strip()` with no argument (whitespace on both ends). -/
def pyStrip (s : String) : String :=
  pyStripGeneral isPyWs s

/-- `raw_stripped.startswith("\x7b")` from line 240 of the source. -/
def startsWithLbrace (s : String) : Bool :=
  match s.data with
  | [] => false
  | c :: _ => c = lbraceChar

/-- Skip JSON inter-token whitespace. -/
def skipWs (cs : List Char) : List Char :=
  cs.dropWhile isJsonWs

/-- Decimal digit test for the JSON numeral scanner. -/
def isDigitChar (c : Char) : Bool :=
  '0' ≤ c && c ≤ '9'

/-- Accumulate a decimal numeral into a natural number. -/
def digitsToNat : List Char → Nat → Nat
  | [], acc => acc
  | c :: cs, acc => digitsToNat cs (acc * 10 + (c.toNat - 48))

/-- Scan an optionally signed integer numeral; part of the modelled
`json.loads`. -/
def parseIntToken (cs : List Char) : Option (Int × List Char) :=
  match cs with
  | c :: rest =>
    if c = '-' then
      let ds := rest.takeWhile isDigitChar
      if ds.isEmpty then none
      else some (-(digitsToNat ds 0 : Int), rest.drop ds.length)
    else
      let ds := cs.takeWhile isDigitChar
      if ds.isEmpty then none
      else some ((digitsToNat ds 0 : Int), cs.drop ds.length)
  | [] => none

/-- Scan the body of a JSON string literal after its opening quote, handling
the single-character escapes; part of the modelled `json.loads`. -/
def parseStringBody : Nat → List Char → List Char → Option (String × List Char)
  | 0, _, _ => none
  | _, [], _ => none
  | fuel + 1, c :: rest, acc =>
    if c = dquoteChar then some (String.mk acc.reverse, rest)
    else if c = backslashChar then
      match rest with
      | [] => none
      | e :: rest2 =>
        if e = dquoteChar then parseStringBody fuel rest2 (dquoteChar :: acc)
        else if e = backslashChar then parseStringBody fuel rest2 (backslashChar :: acc)
        else if e = '/' then parseStringBody fuel rest2 ('/' :: acc)
        else if e = 'n' then parseStringBody fuel rest2 ('\n' :: acc)
        else if e = 't' then parseStringBody fuel rest2 ('\t' :: acc)
        else if e = 'r' then parseStringBody fuel rest2 ('\r' :: acc)
        else if e = 'b' then parseStringBody fuel rest2 (Char.ofNat 8 :: acc)
        else if e = 'f' then parseStringBody fuel rest2 (Char.ofNat 12 :: acc)
        else none
    else parseStringBody fuel rest (c :: acc)

/-- Parsing mode: a single JSON value, or the member list of an object with
the members read so far. -/
inductive PMode where
  | value : PMode
  | members (acc : List (String × Json)) : PMode

/-- Fuel-based recursive-descent parser, the core of the modelled
`json.loads`.  In `value` mode it parses one JSON value; in `members` mode it
parses the remainder of an object body and returns the whole object. -/
def parseF : Nat → PMode → List Char → Option (Json × List Char)
  | 0, _, _ => none
  | fuel + 1, PMode.value, cs =>
    let cs1 := skipWs cs
    if cs1.take 4 = ['n', 'u', 'l', 'l'] then some (Json.null, cs1.drop 4)
    else if cs1.take 4 = ['t', 'r', 'u', 'e'] then some (Json.bool true, cs1.drop 4)
    else if cs1.take 5 = ['f', 'a', 'l', 's', 'e'] then some (Json.bool false, cs1.drop 5)
    else
      match cs1 with
      | [] => none
      | c :: rest =>
        if c = dquoteChar then
          (parseStringBody (fuel + 1) rest []).map (fun p => (Json.str p.1, p.2))
        else if c = lbraceChar then
          match skipWs rest with
          | r0 :: r1 =>
            if r0 = rbraceChar then some (Json.obj [], r1)
            else parseF fuel (PMode.members []) rest
          | [] => none
        else
          (parseIntToken cs1).map (fun p => (Json.num p.1, p.2))
  | fuel + 1, PMode.members acc, cs =>
    match skipWs cs with
    | [] => none
    | c :: rest =>
      if c = dquoteChar then
        match parseStringBody (fuel + 1) rest [] with
        | none => none
        | some (k, r1) =>
          match skipWs r1 with
          | [] => none
          | c2 :: r2 =>
            if c2 = ':' then
              match parseF fuel PMode.value r2 with
              | none => none
              | some (v, r3) =>
                match skipWs r3 with
                | [] => none
                | c3 :: r4 =>
                  if c3 = ',' then parseF fuel (PMode.members ((k, v) :: acc)) r4
                  else if c3 = rbraceChar then some (Json.obj (((k, v) :: acc).reverse), r4)
                  else none
            else none
      else none

/-- Model of Python's `json.loads`: parse one JSON value and require that only
whitespace remains.  Errors stand for a raised `JSONDecodeError`. -/
def jsonLoads (s : String) : Except String Json :=
  match parseF (2 * s.length + 2) PMode.value s.data with
  | none => Except.error "JSONDecodeError"
  | some (v, rest) =>
    if (skipWs rest).isEmpty then Except.ok v else Except.error "Extra data"

/-- Python `dict.get` with a `None` default is modelled by an association-list
lookup in which a repeated key keeps its last value (CPython dict semantics). -/
def dictGet (kvs : List (String × Json)) (k : String) : Option Json :=
  (kvs.reverse.find? (fun p => p.1 = k)).map (fun p => p.2)

/-- `occupancy.get(k)` as it appears in the payload construction: `None`
becomes JSON `null` in the request body. -/
def pyGetD (kvs : List (String × Json)) (k : String) : Json :=
  (dictGet kvs k).getD Json.null

/-- `k in occupancy.keys()`. -/
def dictHasKey (kvs : List (String × Json)) (k : String) : Bool :=
  kvs.any (fun p => p.1 = k)

/-- `expected_keys` from lines 199-204 of the source. -/
def expectedKeys : List String :=
  ["available_units", "booked_units", "out_of_service", "blocked_dates"]

/-- `expected_keys - set(occupancy.keys())` from line 247: the required keys
absent from the parsed payload. -/
def missingKeys (kvs : List (String × Json)) : List String :=
  expectedKeys.filter (fun k => !(dictHasKey kvs k))

/-- Python `occupancy.get(k) == 0` from line 252: integer `0` and `False`
compare equal to `0`; every other JSON value (including `None`, strings and
nonzero numbers) does not. -/
def pyEqZero : Json → Bool
  | Json.num n => n = 0
  | Json.bool b => !b
  | _ => false

/-- `all(occupancy.get(k) == 0 for k in expected_keys)` from line 252. -/
def allValuesZero (kvs : List (String × Json)) : Bool :=
  expectedKeys.all (fun k => pyEqZero (pyGetD kvs k))

/-- The normalisation of lines 223-224: whitespace strip, then
quote-character strip, then whitespace strip again. -/
def normalizeResponse (raw : String) : String :=
  pyStrip (pyStripGeneral isQuoteChar (pyStrip raw))

/-- `max_attempts = 3` from line 198. -/
def maxAttempts : Nat := 3

/-- What one loop iteration of `fetch_occupancy_from_cloudbeds` does with a
raw model response (lines 223-266): recognise the sentinel, reject non-JSON
(a raised `RuntimeError`), parse, reject missing keys (a raised
`ValueError`), flag an all-zero payload, or accept the parsed dict. -/
inductive AttemptVerdict where
  | sentinel : AttemptVerdict
  | fatal (msg : String) : AttemptVerdict
  | allZero : AttemptVerdict
  | accept (kvs : List (String × Json)) : AttemptVerdict

/-- The response classification of lines 223-263 of the source, in source
order: sentinel check on the normalised text, JSON-prefix check on the
stripped text, `json.loads`, missing-key check, all-zero check. -/
def processAttempt (raw : String) : AttemptVerdict :=
  let rawStripped := pyStrip raw
  if normalizeResponse raw = "NO_DATA" then AttemptVerdict.sentinel
  else if startsWithLbrace rawStripped = false then
    AttemptVerdict.fatal "Model did not return JSON"
  else
    match jsonLoads rawStripped with
    | Except.error e => AttemptVerdict.fatal e
    | Except.ok (Json.obj kvs) =>
      if missingKeys kvs = [] then
        if allValuesZero kvs = true then AttemptVerdict.allZero
        else AttemptVerdict.accept kvs
      else AttemptVerdict.fatal "Missing keys in occupancy JSON"
    | Except.ok _ => AttemptVerdict.fatal "Model response was not a JSON object"

/-- Outcome of `client.sessions.create` (lines 170-174): the awaited call
raises, or returns a session object with optional `errors` and optional
`data.id`. -/
inductive SessionOutcome where
  | raised (msg : String) : SessionOutcome
  | returned (errors : Option String) (dataId : Option String) : SessionOutcome

/-- Outcome of a fire-and-forget remote call (`save_profile_on_termination`,
`sessions.terminate`): it raises or completes. -/
inductive CallOutcome where
  | raised (msg : String) : CallOutcome
  | completed : CallOutcome

/-- Outcome of `client.windows.create` (lines 181-188): raises, or returns a
window whose `data` (carrying `window_id`) may be absent. -/
inductive WindowOutcome where
  | raised (msg : String) : WindowOutcome
  | returned (dataWindowId : Option String) : WindowOutcome

/-- Outcome of one `client.windows.page_query` call (lines 208-220): raises,
or responds with an optional `error` field and the raw `model_response`
text. -/
inductive PageQueryOutcome where
  | raised (msg : String) : PageQueryOutcome
  | responded (error : Option String) (modelResponse : String) : PageQueryOutcome

/-- Environment of one run of `fetch_occupancy_from_cloudbeds`: the value of
the Airtop credential and the behaviour of every remote call the function can
make.  `pageQueryOutcome a` is the outcome of the page query of attempt `a`. -/
structure AirtopEnv where
  airtopApiKey : String
  sessionOutcome : SessionOutcome
  saveProfileOutcome : CallOutcome
  windowOutcome : WindowOutcome
  pageQueryOutcome : Nat → PageQueryOutcome
  terminateOutcome : CallOutcome

/-- Observable side effects of a run, in order of occurrence. -/
inductive Event where
  | clientCreated : Event
  | sessionCreateRequested : Event
  | profileSaveRequested : Event
  | windowCreateRequested : Event
  | pageQueryIssued (attempt : Nat) : Event
  | sleepBackoff : Event
  | terminateRequested : Event
  | patchSent (fields : List (String × Json)) : Event
  | responseBodyLogged (body : String) : Event

/-- How the retry loop of lines 206-266 ends: an accepted reading, the
`return None` of the exhausted-sentinel branch, a raised exception, or normal
loop fall-through (line 268, unreachable when all attempt numbers are
processed). -/
inductive LoopOut where
  | reading (kvs : List (String × Json)) : LoopOut
  | noData : LoopOut
  | raised (msg : String) : LoopOut
  | fellThrough : LoopOut

/-- The `for attempt in range(1, max_attempts + 1)` loop of lines 206-266,
processing the listed attempt numbers in order.  Sentinel and all-zero
verdicts end the loop on the final attempt and otherwise sleep and continue;
fatal verdicts and transport errors raise at once; an accepted payload is
returned at once. -/
def runLoop (pq : Nat → PageQueryOutcome) (maxA : Nat) : List Nat → List Event × LoopOut
  | [] => ([], LoopOut.fellThrough)
  | a :: rest =>
    match pq a with
    | PageQueryOutcome.raised msg => ([Event.pageQueryIssued a], LoopOut.raised msg)
    | PageQueryOutcome.responded (some e) _ =>
      ([Event.pageQueryIssued a], LoopOut.raised ("Failed to prompt content: " ++ e))
    | PageQueryOutcome.responded none raw =>
      match processAttempt raw with
      | AttemptVerdict.sentinel =>
        if a = maxA then ([Event.pageQueryIssued a], LoopOut.noData)
        else
          (Event.pageQueryIssued a :: Event.sleepBackoff :: (runLoop pq maxA rest).1,
           (runLoop pq maxA rest).2)
      | AttemptVerdict.fatal msg => ([Event.pageQueryIssued a], LoopOut.raised msg)
      | AttemptVerdict.allZero =>
        if a = maxA then
          ([Event.pageQueryIssued a],
           LoopOut.raised "Model returned 0 for all occupancy fields after multiple attempts.")
        else
          (Event.pageQueryIssued a :: Event.sleepBackoff :: (runLoop pq maxA rest).1,
           (runLoop pq maxA rest).2)
      | AttemptVerdict.accept kvs => ([Event.pageQueryIssued a], LoopOut.reading kvs)

/-- The attempt numbers `range(1, n + 1)` iterated by the loop. -/
def attemptNumbers (n : Nat) : List Nat :=
  (List.range n).map (fun i => i + 1)

/-- Result of `fetch_occupancy_from_cloudbeds`: a returned dict, the returned
`None`, or a raised exception. -/
inductive FetchOutcome where
  | reading (kvs : List (String × Json)) : FetchOutcome
  | noData : FetchOutcome
  | raised (msg : String) : FetchOutcome

/-- Map the loop result to the function result; fall-through hits the raise
at line 269. -/
def liftLoopOut : LoopOut → FetchOutcome
  | LoopOut.reading kvs => FetchOutcome.reading kvs
  | LoopOut.noData => FetchOutcome.noData
  | LoopOut.raised m => FetchOutcome.raised m
  | LoopOut.fellThrough => FetchOutcome.raised "Failed to obtain occupancy data after retries."

/-- Events of the set-up sequence once it runs to the loop: client
construction, session creation, profile-save request, window creation. -/
def setupEvents : List Event :=
  [Event.clientCreated, Event.sessionCreateRequested,
   Event.profileSaveRequested, Event.windowCreateRequested]

/-- Body of the `try` block of `fetch_occupancy_from_cloudbeds` (lines
157-269): returns the emitted events, the value of the `session_id` local at
exit (which the `finally` block consults), and the outcome.  The exception
handlers of lines 271-283 only log and re-raise, so raising outcomes pass
through unchanged. -/
def fetchBody (env : AirtopEnv) : List Event × Option String × FetchOutcome :=
  match env.sessionOutcome with
  | SessionOutcome.raised msg =>
    ([Event.clientCreated, Event.sessionCreateRequested], none, FetchOutcome.raised msg)
  | SessionOutcome.returned (some e) _ =>
    ([Event.clientCreated, Event.sessionCreateRequested], none,
     FetchOutcome.raised ("Failed to create session: " ++ e))
  | SessionOutcome.returned none dataId =>
    match env.saveProfileOutcome with
    | CallOutcome.raised msg =>
      ([Event.clientCreated, Event.sessionCreateRequested, Event.profileSaveRequested],
       dataId, FetchOutcome.raised msg)
    | CallOutcome.completed =>
      match env.windowOutcome with
      | WindowOutcome.raised msg => (setupEvents, dataId, FetchOutcome.raised msg)
      | WindowOutcome.returned none =>
        (setupEvents, dataId, FetchOutcome.raised "Failed to create window")
      | WindowOutcome.returned (some _) =>
        (setupEvents ++ (runLoop env.pageQueryOutcome maxAttempts (attemptNumbers maxAttempts)).1,
         dataId,
         liftLoopOut (runLoop env.pageQueryOutcome maxAttempts (attemptNumbers maxAttempts)).2)

/-- `fetch_occupancy_from_cloudbeds` (lines 135-290).  The pre-flight
credential guard of line 151 compares against the empty string and the
literal `"AIRTOP_API_KEY"`.  The `finally` block requests session termination
exactly when the client exists and `session_id` is not `None`; a failure of
the termination call itself is caught and logged (lines 287-290), so the
outcome never depends on `terminateOutcome`. -/
def fetch_occupancy_from_cloudbeds (env : AirtopEnv) : List Event × FetchOutcome :=
  if env.airtopApiKey = "" ∨ env.airtopApiKey = "AIRTOP_API_KEY" then
    ([], FetchOutcome.raised "AIRTOP_API_KEY is not set")
  else
    match fetchBody env with
    | (evs, some _, out) => (evs ++ [Event.terminateRequested], out)
    | (evs, none, out) => (evs, out)

/-- `FIELD_AVAILABLE` (line 44). -/
def FIELD_AVAILABLE : String := "Available Units"

/-- `FIELD_BOOKED` (line 45). -/
def FIELD_BOOKED : String := "Booked Units"

/-- `FIELD_OOS` (line 46). -/
def FIELD_OOS : String := "Out of Service"

/-- `FIELD_BLOCKED` (line 47). -/
def FIELD_BLOCKED : String := "Blocked Dates"

/-- The `payload["fields"]` object built at lines 111-118: exactly the four
configured field names, each looked up with `dict.get` (absent keys become
`null`). -/
def airtablePayloadFields (occupancy : List (String × Json)) : List (String × Json) :=
  [(FIELD_AVAILABLE, pyGetD occupancy "available_units"),
   (FIELD_BOOKED, pyGetD occupancy "booked_units"),
   (FIELD_OOS, pyGetD occupancy "out_of_service"),
   (FIELD_BLOCKED, pyGetD occupancy "blocked_dates")]

/-- Result of `update_airtable`: normal return or a raised exception. -/
inductive UpdateOutcome where
  | ok : UpdateOutcome
  | raised (msg : String) : UpdateOutcome

/-- `requests.Response.raise_for_status` raises `HTTPError` exactly for 4xx
and 5xx status codes. -/
def raiseForStatusRaises (status : Nat) : Bool :=
  400 ≤ status && status < 600

/-- `update_airtable` (lines 91-128), with the PATCH response supplied as a
status code and body text.  The credential guard of line 101 fires on the
empty string or the placeholder default; otherwise the payload is sent and
`raise_for_status` is consulted, logging the response body before
re-raising. -/
def update_airtable (occupancy : List (String × Json)) (airtableApiKey : String)
    (status : Nat) (respText : String) : List Event × UpdateOutcome :=
  if airtableApiKey = "" ∨ airtableApiKey = "YOUR_AIRTABLE_API_KEY" then
    ([], UpdateOutcome.raised "AIRTABLE_API_KEY is not set")
  else
    if raiseForStatusRaises status then
      ([Event.patchSent (airtablePayloadFields occupancy),
        Event.responseBodyLogged respText],
       UpdateOutcome.raised "HTTPError")
    else
      ([Event.patchSent (airtablePayloadFields occupancy)], UpdateOutcome.ok)

/-- Environment of one whole run: the extractor environment plus the Airtable
credential and the PATCH response. -/
structure RunEnv where
  airtop : AirtopEnv
  airtableApiKey : String
  patchStatus : Nat
  patchRespText : String

/-- How the process run ends: normal exit or an uncaught exception. -/
inductive RunOutcome where
  | success : RunOutcome
  | raised (msg : String) : RunOutcome

/-- `main` (lines 297-304): run the extractor; on `None` skip the update and
return; on a reading call `update_airtable`; exceptions propagate.  (Named
`main_run` because Lean reserves `main` for executable entry points.) -/
def main_run (env : RunEnv) : List Event × RunOutcome :=
  match fetch_occupancy_from_cloudbeds env.airtop with
  | (evs, FetchOutcome.raised m) => (evs, RunOutcome.raised m)
  | (evs, FetchOutcome.noData) => (evs, RunOutcome.success)
  | (evs, FetchOutcome.reading kvs) =>
    match update_airtable kvs env.airtableApiKey env.patchStatus env.patchRespText with
    | (evs2, UpdateOutcome.ok) => (evs ++ evs2, RunOutcome.success)
    | (evs2, UpdateOutcome.raised m) => (evs ++ evs2, RunOutcome.raised m)

/-- Recognise page-query events. -/
def isPageQueryEvent : Event → Bool
  | Event.pageQueryIssued _ => true
  | _ => false

/-- Recognise backoff-sleep events. -/
def isSleepEvent : Event → Bool
  | Event.sleepBackoff => true
  | _ => false

/-- Recognise session-termination requests. -/
def isTerminateEvent : Event → Bool
  | Event.terminateRequested => true
  | _ => false

/-- Recognise PATCH requests to the backend. -/
def isPatchEvent : Event → Bool
  | Event.patchSent _ => true
  | _ => false

/-- Recognise response-body log lines. -/
def isBodyLogEvent : Event → Bool
  | Event.responseBodyLogged _ => true
  | _ => false

/-- A nonempty result of `dropTrailingWhile` starts with the first character
of its input. -/
theorem dropTrailingWhile_head (p : Char → Bool) (l : List Char) (c : Char) (r : List Char)
    (h : dropTrailingWhile p l = c :: r) : ∃ r2, l = c :: r2 := by
  cases l with
  | nil => simp [dropTrailingWhile] at h
  | cons a t =>
    unfold dropTrailingWhile at h
    cases hrec : dropTrailingWhile p t with
    | nil =>
      rw [hrec] at h
      by_cases hp : p a
      · rw [if_pos hp] at h; simp at h
      · rw [if_neg hp] at h
        injection h with h1 h2
        exact ⟨t, by rw [h1]⟩
    | cons c2 cs2 =>
      rw [hrec] at h
      injection h with h1 h2
      exact ⟨t, by rw [h1]⟩

/-- The head of `dropWhile p` fails `p`. -/
theorem dropWhile_head_false (p : Char → Bool) :
    ∀ (l : List Char) (c : Char) (r : List Char), l.dropWhile p = c :: r → p c = false := by
  intro l
  induction l with
  | nil => intro c r h; simp [List.dropWhile] at h
  | cons a t ih =>
    intro c r h
    rw [List.dropWhile_cons] at h
    by_cases hp : p a
    · rw [if_pos hp] at h; exact ih c r h
    · rw [if_neg hp] at h
      injection h with h1 h2
      subst h1
      simpa using hp

/-- The first character of a stripped string is not whitespace. -/
theorem pyStrip_head_not_ws (s : String) (c : Char) (t : List Char)
    (h : (pyStrip s).data = c :: t) : isPyWs c = false := by
  have h2 : dropTrailingWhile isPyWs (s.data.dropWhile isPyWs) = c :: t := h
  obtain ⟨r2, hr⟩ := dropTrailingWhile_head isPyWs _ c t h2
  exact dropWhile_head_false isPyWs s.data c r2 hr

/-- Stripping characters that the head does not satisfy leaves the string
empty or keeps its head. -/
theorem pyStripGeneral_head (p : Char → Bool) (s : String) (c : Char) (t : List Char)
    (hs : s.data = c :: t) (hc : p c = false) :
    (pyStripGeneral p s).data = [] ∨ ∃ t2, (pyStripGeneral p s).data = c :: t2 := by
  show dropTrailingWhile p (s.data.dropWhile p) = [] ∨
    ∃ t2, dropTrailingWhile p (s.data.dropWhile p) = c :: t2
  rw [hs, List.dropWhile_cons, if_neg (by simp [hc])]
  cases hdt : dropTrailingWhile p (c :: t) with
  | nil => exact Or.inl rfl
  | cons c2 cs2 =>
    obtain ⟨r2, hr⟩ := dropTrailingWhile_head p _ _ _ hdt
    injection hr with h1 h2
    exact Or.inr ⟨cs2, by rw [h1]⟩

/-- JSON inter-token whitespace is also Python `str.strip()` whitespace. -/
theorem isPyWs_of_isJsonWs (c : Char) (h : isJsonWs c = true) : isPyWs c = true := by
  simp only [isJsonWs, Bool.or_eq_true, decide_eq_true_eq] at h
  rcases h with ((h | h) | h) | h <;> simp [isPyWs, h]

/-- If the stripped response text parses as a JSON object, its first
character is the opening brace (leading JSON whitespace would already have
been stripped). -/
theorem jsonLoads_obj_head (raw : String) (kvs : List (String × Json))
    (h : jsonLoads (pyStrip raw) = Except.ok (Json.obj kvs)) :
    ∃ rest, (pyStrip raw).data = lbraceChar :: rest := by
  unfold jsonLoads at h
  cases hp0 : parseF (2 * (pyStrip raw).length + 2) PMode.value (pyStrip raw).data with
  | none => rw [hp0] at h; simp at h
  | some pr =>
    rw [hp0] at h
    obtain ⟨v, rest⟩ := pr
    replace h : (if (skipWs rest).isEmpty = true then Except.ok v
        else Except.error "Extra data") = Except.ok (Json.obj kvs) := h
    by_cases he : (skipWs rest).isEmpty
    · rw [if_pos he] at h
      injection h with hv
      subst hv
      have hp : parseF ((2 * (pyStrip raw).length + 1) + 1) PMode.value (pyStrip raw).data
          = some (Json.obj kvs, rest) := hp0
      simp only [parseF] at hp
      cases hdata : (pyStrip raw).data with
      | nil =>
        rw [hdata] at hp
        simp [skipWs, List.dropWhile] at hp
      | cons c t =>
        have hws := pyStrip_head_not_ws raw c t hdata
        have hjws : isJsonWs c = false := by
          cases hcj : isJsonWs c with
          | false => rfl
          | true => simp [isPyWs_of_isJsonWs c hcj] at hws
        rw [hdata] at hp
        have hskip : skipWs (c :: t) = c :: t := by
          simp [skipWs, List.dropWhile_cons, hjws]
        rw [hskip] at hp
        by_cases h1 : (c :: t).take 4 = ['n', 'u', 'l', 'l']
        · rw [if_pos h1] at hp; simp at hp
        · rw [if_neg h1] at hp
          by_cases h2 : (c :: t).take 4 = ['t', 'r', 'u', 'e']
          · rw [if_pos h2] at hp; simp at hp
          · rw [if_neg h2] at hp
            by_cases h3 : (c :: t).take 5 = ['f', 'a', 'l', 's', 'e']
            · rw [if_pos h3] at hp; simp at hp
            · rw [if_neg h3] at hp
              by_cases hlb : c = lbraceChar
              · exact ⟨t, by rw [hlb]⟩
              · exfalso
                split at hp
                · simp at hp
                · rename_i c1 rest1 heq1
                  injection heq1 with hc1 ht1
                  by_cases hdq : c1 = dquoteChar
                  · rw [if_pos hdq, Option.map_eq_some'] at hp
                    obtain ⟨p, hp1, hp2⟩ := hp
                    simp at hp2
                  · rw [if_neg hdq,
                      if_neg (fun hh => hlb (by rw [hc1, hh])),
                      Option.map_eq_some'] at hp
                    obtain ⟨p, hp1, hp2⟩ := hp
                    simp at hp2
    · rw [if_neg he] at h
      simp at h

/-- A response whose stripped text starts with a brace is never recognised
as the `NO_DATA` sentinel by the normalisation of lines 223-227. -/
theorem normalize_ne_sentinel (raw : String) (rest : List Char)
    (hhead : (pyStrip raw).data = lbraceChar :: rest) :
    ¬ normalizeResponse raw = "NO_DATA" := by
  intro heq
  have hdata : (normalizeResponse raw).data = ("NO_DATA" : String).data :=
    congrArg String.data heq
  rcases pyStripGeneral_head isQuoteChar (pyStrip raw) lbraceChar rest hhead (by decide)
    with h1 | ⟨t2, h2⟩
  · have hz : (normalizeResponse raw).data = [] := by
      show dropTrailingWhile isPyWs
        (((pyStripGeneral isQuoteChar (pyStrip raw)).data).dropWhile isPyWs) = []
      rw [h1]
      rfl
    rw [hz] at hdata
    exact absurd hdata (by decide)
  · rcases pyStripGeneral_head isPyWs (pyStripGeneral isQuoteChar (pyStrip raw))
      lbraceChar t2 h2 (by decide) with h3 | ⟨t3, h4⟩
    · have hz : (normalizeResponse raw).data = [] := h3
      rw [hz] at hdata
      exact absurd hdata (by decide)
    · have hz : (normalizeResponse raw).data = lbraceChar :: t3 := h4
      rw [hz] at hdata
      have hND : ("NO_DATA" : String).data = 'N' :: ['O', '_', 'D', 'A', 'T', 'A'] := rfl
      rw [hND] at hdata
      injection hdata with hh _
      exact absurd hh (by decide)

/-- A sentinel response is classified as such. -/
theorem processAttempt_sentinel (raw : String) (hns : normalizeResponse raw = "NO_DATA") :
    processAttempt raw = AttemptVerdict.sentinel := by
  simp only [processAttempt]
  rw [if_pos hns]

/-- A non-sentinel response not starting with a brace raises the
protocol-violation error of line 241. -/
theorem processAttempt_fatal_nonjson (raw : String)
    (hns : ¬ normalizeResponse raw = "NO_DATA")
    (hsw : startsWithLbrace (pyStrip raw) = false) :
    processAttempt raw = AttemptVerdict.fatal "Model did not return JSON" := by
  simp only [processAttempt]
  rw [if_neg hns, if_pos hsw]

/-- Once a response parses as a JSON object, the classification is exactly
the missing-key check followed by the all-zero check of lines 247-266. -/
theorem processAttempt_of_parse (raw : String) (kvs : List (String × Json))
    (h : jsonLoads (pyStrip raw) = Except.ok (Json.obj kvs)) :
    processAttempt raw =
      (if missingKeys kvs = [] then
        (if allValuesZero kvs = true then AttemptVerdict.allZero
         else AttemptVerdict.accept kvs)
       else AttemptVerdict.fatal "Missing keys in occupancy JSON") := by
  obtain ⟨rest, hhead⟩ := jsonLoads_obj_head raw kvs h
  have hns := normalize_ne_sentinel raw rest hhead
  have hsw : startsWithLbrace (pyStrip raw) = true := by
    unfold startsWithLbrace
    rw [hhead]
    simp
  simp only [processAttempt]
  rw [if_neg hns, if_neg (by simp [hsw]), h]

/-- A response is accepted as a reading exactly when it parses as a JSON
object, misses none of the four required keys, and is not all-zero. -/
theorem processAttempt_accept_inv (raw : String) (kvs : List (String × Json))
    (h : processAttempt raw = AttemptVerdict.accept kvs) :
    jsonLoads (pyStrip raw) = Except.ok (Json.obj kvs) ∧
      missingKeys kvs = [] ∧ allValuesZero kvs = false := by
  simp only [processAttempt] at h
  split at h
  · simp at h
  · split at h
    · simp at h
    · split at h
      · simp at h
      · rename_i kvs2 heq
        split at h
        · split at h
          · simp at h
          · injection h with hk
            subst hk
            exact ⟨heq, by assumption, Bool.eq_false_iff.mpr (by assumption)⟩
        · simp at h
      · simp at h

/-- The attempt numbers iterated for three attempts. -/
theorem attemptNumbers_three : attemptNumbers maxAttempts = [1, 2, 3] := rfl

/-- The loop reaches the closing continuation of one attempt: a sentinel or
all-zero verdict on a non-final attempt sleeps and moves on. -/
theorem runLoop_skip (pq : Nat → PageQueryOutcome) (a : Nat) (rest : List Nat) (raw : String)
    (hpq : pq a = PageQueryOutcome.responded none raw)
    (hv : processAttempt raw = AttemptVerdict.sentinel ∨
      processAttempt raw = AttemptVerdict.allZero)
    (hne : ¬ a = maxAttempts) :
    runLoop pq maxAttempts (a :: rest) =
      (Event.pageQueryIssued a :: Event.sleepBackoff :: (runLoop pq maxAttempts rest).1,
       (runLoop pq maxAttempts rest).2) := by
  rcases hv with hv | hv <;> simp [runLoop, hpq, hv, hne]

/-- An accepted payload ends the loop at once with that reading. -/
theorem runLoop_accept (pq : Nat → PageQueryOutcome) (a : Nat) (rest : List Nat) (raw : String)
    (kvs : List (String × Json))
    (hpq : pq a = PageQueryOutcome.responded none raw)
    (hv : processAttempt raw = AttemptVerdict.accept kvs) :
    runLoop pq maxAttempts (a :: rest) =
      ([Event.pageQueryIssued a], LoopOut.reading kvs) := by
  simp [runLoop, hpq, hv]

/-- A fatal verdict raises at once, on any attempt. -/
theorem runLoop_fatal (pq : Nat → PageQueryOutcome) (a : Nat) (rest : List Nat) (raw : String)
    (msg : String)
    (hpq : pq a = PageQueryOutcome.responded none raw)
    (hv : processAttempt raw = AttemptVerdict.fatal msg) :
    runLoop pq maxAttempts (a :: rest) =
      ([Event.pageQueryIssued a], LoopOut.raised msg) := by
  simp [runLoop, hpq, hv]

/-- A sentinel on the final attempt returns the no-data outcome. -/
theorem runLoop_sentinel_last (pq : Nat → PageQueryOutcome) (a : Nat) (rest : List Nat)
    (raw : String) (ha : a = maxAttempts)
    (hpq : pq a = PageQueryOutcome.responded none raw)
    (hv : processAttempt raw = AttemptVerdict.sentinel) :
    runLoop pq maxAttempts (a :: rest) =
      ([Event.pageQueryIssued a], LoopOut.noData) := by
  subst ha
  simp [runLoop, hpq, hv]

/-- An all-zero payload on the final attempt raises the exhaustion error of
lines 258-261. -/
theorem runLoop_allzero_last (pq : Nat → PageQueryOutcome) (a : Nat) (rest : List Nat)
    (raw : String) (ha : a = maxAttempts)
    (hpq : pq a = PageQueryOutcome.responded none raw)
    (hv : processAttempt raw = AttemptVerdict.allZero) :
    runLoop pq maxAttempts (a :: rest) =
      ([Event.pageQueryIssued a],
       LoopOut.raised "Model returned 0 for all occupancy fields after multiple attempts.") := by
  subst ha
  simp [runLoop, hpq, hv]

/-- A reading produced by the loop comes from some attempt whose response was
classified as accepted. -/
theorem runLoop_reading_inv (pq : Nat → PageQueryOutcome) (kvs : List (String × Json)) :
    ∀ l : List Nat, (runLoop pq maxAttempts l).2 = LoopOut.reading kvs →
      ∃ a raw, pq a = PageQueryOutcome.responded none raw ∧
        processAttempt raw = AttemptVerdict.accept kvs := by
  intro l
  induction l with
  | nil => intro h; simp [runLoop] at h
  | cons a rest ih =>
    intro h
    cases hpq : pq a with
    | raised msg => simp [runLoop, hpq] at h
    | responded err raw =>
      cases err with
      | some e => simp [runLoop, hpq] at h
      | none =>
        cases hv : processAttempt raw with
        | sentinel =>
          by_cases hne : a = maxAttempts
          · subst hne
            rw [runLoop_sentinel_last pq maxAttempts rest raw rfl hpq hv] at h
            simp at h
          · rw [runLoop_skip pq a rest raw hpq (Or.inl hv) hne] at h
            exact ih h
        | fatal msg => simp [runLoop, hpq, hv] at h
        | allZero =>
          by_cases hne : a = maxAttempts
          · subst hne
            rw [runLoop_allzero_last pq maxAttempts rest raw rfl hpq hv] at h
            simp at h
          · rw [runLoop_skip pq a rest raw hpq (Or.inr hv) hne] at h
            exact ih h
        | accept kvs2 =>
          rw [runLoop_accept pq a rest raw kvs2 hpq hv] at h
          injection h with hk
          exact ⟨a, raw, hpq, by rw [hv, hk]⟩

/-- The loop only emits page-query and backoff-sleep events: any event
predicate false on those filters the loop's event list to nothing. -/
theorem runLoop_filter_nil (pq : Nat → PageQueryOutcome) (p : Event → Bool)
    (hp : ∀ a, p (Event.pageQueryIssued a) = false)
    (hsl : p Event.sleepBackoff = false) :
    ∀ l : List Nat, (runLoop pq maxAttempts l).1.filter p = [] := by
  intro l
  induction l with
  | nil => simp [runLoop]
  | cons a rest ih =>
    cases hpq : pq a with
    | raised msg => simp [runLoop, hpq, List.filter, hp]
    | responded err raw =>
      cases err with
      | some e2 => simp [runLoop, hpq, List.filter, hp]
      | none =>
        cases hv : processAttempt raw with
        | sentinel =>
          by_cases hne : a = maxAttempts
          · subst hne
            rw [runLoop_sentinel_last pq maxAttempts rest raw rfl hpq hv]
            simp [List.filter, hp]
          · rw [runLoop_skip pq a rest raw hpq (Or.inl hv) hne]
            simp [List.filter, hp, hsl, ih]
        | fatal msg =>
          rw [runLoop_fatal pq a rest raw msg hpq hv]
          simp [List.filter, hp]
        | allZero =>
          by_cases hne : a = maxAttempts
          · subst hne
            rw [runLoop_allzero_last pq maxAttempts rest raw rfl hpq hv]
            simp [List.filter, hp]
          · rw [runLoop_skip pq a rest raw hpq (Or.inr hv) hne]
            simp [List.filter, hp, hsl, ih]
        | accept kvs =>
          rw [runLoop_accept pq a rest raw kvs hpq hv]
          simp [List.filter, hp]

/-- When the credential guard passes and session, profile-save and window
creation succeed, the fetch is the set-up events, the loop, and one final
termination request, with the loop's outcome. -/
theorem fetch_runs_loop (env : AirtopEnv) (sid wid : String)
    (hkey : ¬(env.airtopApiKey = "" ∨ env.airtopApiKey = "AIRTOP_API_KEY"))
    (hsess : env.sessionOutcome = SessionOutcome.returned none (some sid))
    (hsave : env.saveProfileOutcome = CallOutcome.completed)
    (hwin : env.windowOutcome = WindowOutcome.returned (some wid)) :
    fetch_occupancy_from_cloudbeds env =
      ((setupEvents ++
          (runLoop env.pageQueryOutcome maxAttempts (attemptNumbers maxAttempts)).1)
         ++ [Event.terminateRequested],
       liftLoopOut (runLoop env.pageQueryOutcome maxAttempts (attemptNumbers maxAttempts)).2) := by
  unfold fetch_occupancy_from_cloudbeds fetchBody
  rw [if_neg hkey, hsess, hsave, hwin]

/-- Any reading the fetch returns was accepted by the response classifier on
some attempt. -/
theorem fetch_reading_inv (env : AirtopEnv) (kvs : List (String × Json))
    (h : (fetch_occupancy_from_cloudbeds env).2 = FetchOutcome.reading kvs) :
    ∃ a raw, env.pageQueryOutcome a = PageQueryOutcome.responded none raw ∧
      processAttempt raw = AttemptVerdict.accept kvs := by
  unfold fetch_occupancy_from_cloudbeds fetchBody at h
  by_cases hkey : env.airtopApiKey = "" ∨ env.airtopApiKey = "AIRTOP_API_KEY"
  · rw [if_pos hkey] at h; simp at h
  · rw [if_neg hkey] at h
    cases hsess : env.sessionOutcome with
    | raised msg => simp only [hsess] at h; simp at h
    | returned errs dataId =>
      cases errs with
      | some e => simp only [hsess] at h; simp at h
      | none =>
        simp only [hsess] at h
        cases hsave : env.saveProfileOutcome with
        | raised msg => simp only [hsave] at h; cases dataId <;> simp at h
        | completed =>
          simp only [hsave] at h
          cases hwin : env.windowOutcome with
          | raised msg => simp only [hwin] at h; cases dataId <;> simp at h
          | returned dw =>
            cases dw with
            | none => simp only [hwin] at h; cases dataId <;> simp at h
            | some wid =>
              simp only [hwin] at h
              have h2 : liftLoopOut
                  (runLoop env.pageQueryOutcome maxAttempts (attemptNumbers maxAttempts)).2
                  = FetchOutcome.reading kvs := by
                cases dataId <;> simpa using h
              cases hout : (runLoop env.pageQueryOutcome maxAttempts (attemptNumbers maxAttempts)).2 with
              | reading kvs2 =>
                rw [hout] at h2
                simp only [liftLoopOut] at h2
                injection h2 with hk
                subst hk
                exact runLoop_reading_inv env.pageQueryOutcome kvs2 _ hout
              | noData => rw [hout] at h2; simp [liftLoopOut] at h2
              | raised m => rw [hout] at h2; simp [liftLoopOut] at h2
              | fellThrough => rw [hout] at h2; simp [liftLoopOut] at h2

/-- Attempt `j` lets the loop continue: its page query responded without
error, and the response was classified as sentinel or all-zero. -/
def continuesAttempt (pq : Nat → PageQueryOutcome) (j : Nat) : Prop :=
  ∃ raw, pq j = PageQueryOutcome.responded none raw ∧
    (processAttempt raw = AttemptVerdict.sentinel ∨
     processAttempt raw = AttemptVerdict.allZero)

/-- No required key is missing exactly when every expected key is present. -/
theorem missingKeys_nil_iff (kvs : List (String × Json)) :
    missingKeys kvs = [] ↔ ∀ k ∈ expectedKeys, dictHasKey kvs k = true := by
  unfold missingKeys
  rw [List.filter_eq_nil_iff]
  constructor
  · intro h k hk
    have h2 := h k hk
    simpa using h2
  · intro h k hk
    simp [h k hk]

/-- The all-zero test fails exactly when some expected key's value does not
compare equal to zero. -/
theorem allValuesZero_false_iff (kvs : List (String × Json)) :
    allValuesZero kvs = false ↔
      ∃ k ∈ expectedKeys, pyEqZero (pyGetD kvs k) = false := by
  unfold allValuesZero
  rw [Bool.eq_false_iff]
  rw [Ne, List.all_eq_true]
  push_neg
  constructor
  · rintro ⟨k, hk, hz⟩
    exact ⟨k, hk, Bool.eq_false_iff.mpr hz⟩
  · rintro ⟨k, hk, hz⟩
    exact ⟨k, hk, by simp [hz]⟩

/-- An extractor environment in which set-up succeeds and every page query
returns the bare sentinel; concrete scenarios below override the page-query
behaviour. -/
def envBase : AirtopEnv :=
  { airtopApiKey := "sk-live-key"
    sessionOutcome := SessionOutcome.returned none (some "sess-1")
    saveProfileOutcome := CallOutcome.completed
    windowOutcome := WindowOutcome.returned (some "win-1")
    pageQueryOutcome := fun _ => PageQueryOutcome.responded none "NO_DATA"
    terminateOutcome := CallOutcome.completed }

/-- The well-formed nonzero payload of end-to-end scenario A. -/
def rawScenarioA : String :=
  "\x7b\"available_units\":28,\"booked_units\":8,\"out_of_service\":3,\"blocked_dates\":2\x7d"

/-- The parse of `rawScenarioA`. -/
def kvsScenarioA : List (String × Json) :=
  [("available_units", Json.num 28), ("booked_units", Json.num 8),
   ("out_of_service", Json.num 3), ("blocked_dates", Json.num 2)]

/-- Extractor environment of scenario A: attempt 1 answers `NO_DATA`,
attempt 2 answers the nonzero payload. -/
def envScenarioA : AirtopEnv :=
  { envBase with
    pageQueryOutcome := fun a =>
      if a = 2 then PageQueryOutcome.responded none rawScenarioA
      else PageQueryOutcome.responded none "NO_DATA" }

/-- Run environment of scenario A with a valid backend key and a 200 PATCH
response. -/
def renvScenarioA : RunEnv :=
  { airtop := envScenarioA
    airtableApiKey := "patTESTKEY"
    patchStatus := 200
    patchRespText := "ok" }

/-- C1: an attempt whose response parses as a JSON object holding all four
required keys with at least one value not equal to zero makes the extractor
return exactly that payload, and the backend update is then invoked exactly
once with the four values mapped to the configured Airtable field names in
the `fields` payload. -/
theorem C1_passthrough_single_update
    (env : RunEnv) (sid wid : String) (i : Nat) (raw : String) (kvs : List (String × Json))
    (hkey : ¬(env.airtop.airtopApiKey = "" ∨ env.airtop.airtopApiKey = "AIRTOP_API_KEY"))
    (hakey : ¬(env.airtableApiKey = "" ∨ env.airtableApiKey = "YOUR_AIRTABLE_API_KEY"))
    (hsess : env.airtop.sessionOutcome = SessionOutcome.returned none (some sid))
    (hsave : env.airtop.saveProfileOutcome = CallOutcome.completed)
    (hwin : env.airtop.windowOutcome = WindowOutcome.returned (some wid))
    (h1 : 1 ≤ i) (h3 : i ≤ maxAttempts)
    (hprev : ∀ j, 1 ≤ j → j < i → continuesAttempt env.airtop.pageQueryOutcome j)
    (hresp : env.airtop.pageQueryOutcome i = PageQueryOutcome.responded none raw)
    (hparse : jsonLoads (pyStrip raw) = Except.ok (Json.obj kvs))
    (hkeys : ∀ k ∈ expectedKeys, dictHasKey kvs k = true)
    (hnz : ∃ k ∈ expectedKeys, pyEqZero (pyGetD kvs k) = false) :
    (fetch_occupancy_from_cloudbeds env.airtop).2 = FetchOutcome.reading kvs ∧
      (main_run env).1.filter isPatchEvent =
        [Event.patchSent
          [(FIELD_AVAILABLE, pyGetD kvs "available_units"),
           (FIELD_BOOKED, pyGetD kvs "booked_units"),
           (FIELD_OOS, pyGetD kvs "out_of_service"),
           (FIELD_BLOCKED, pyGetD kvs "blocked_dates")]] := by
  have hmiss : missingKeys kvs = [] := (missingKeys_nil_iff kvs).mpr hkeys
  have hz : allValuesZero kvs = false := (allValuesZero_false_iff kvs).mpr hnz
  have hacc : processAttempt raw = AttemptVerdict.accept kvs := by
    rw [processAttempt_of_parse raw kvs hparse, if_pos hmiss, if_neg (by simp [hz])]
  have h3n : i ≤ 3 := h3
  have hloop2 : (runLoop env.airtop.pageQueryOutcome maxAttempts (attemptNumbers maxAttempts)).2
      = LoopOut.reading kvs := by
    rw [attemptNumbers_three]
    interval_cases i
    · rw [runLoop_accept _ 1 [2, 3] raw kvs hresp hacc]
    · obtain ⟨r1, hp1, hv1⟩ := hprev 1 (by omega) (by omega)
      rw [runLoop_skip _ 1 [2, 3] r1 hp1 hv1 (by decide),
        runLoop_accept _ 2 [3] raw kvs hresp hacc]
    · obtain ⟨r1, hp1, hv1⟩ := hprev 1 (by omega) (by omega)
      obtain ⟨r2, hp2, hv2⟩ := hprev 2 (by omega) (by omega)
      rw [runLoop_skip _ 1 [2, 3] r1 hp1 hv1 (by decide),
        runLoop_skip _ 2 [3] r2 hp2 hv2 (by decide),
        runLoop_accept _ 3 [] raw kvs hresp hacc]
  have hfetch := fetch_runs_loop env.airtop sid wid hkey hsess hsave hwin
  have hfetch2 : (fetch_occupancy_from_cloudbeds env.airtop).2 = FetchOutcome.reading kvs := by
    rw [hfetch, hloop2]
    rfl
  refine ⟨hfetch2, ?_⟩
  have hnopatch := runLoop_filter_nil env.airtop.pageQueryOutcome isPatchEvent
    (fun _ => rfl) rfl (attemptNumbers maxAttempts)
  unfold main_run
  rw [hfetch, hloop2]
  simp only [liftLoopOut]
  unfold update_airtable
  rw [if_neg hakey]
  by_cases hst : raiseForStatusRaises env.patchStatus
  · rw [if_pos hst]
    simp [List.filter_append, hnopatch, List.filter, isPatchEvent, setupEvents,
      airtablePayloadFields]
  · rw [if_neg hst]
    simp [List.filter_append, hnopatch, List.filter, isPatchEvent, setupEvents,
      airtablePayloadFields]

/-- Witness for C1 at end-to-end scenario A: attempt 1 `NO_DATA`, attempt 2
the 28/8/3/2 payload. -/
theorem C1_passthrough_single_update_witness :
    (fetch_occupancy_from_cloudbeds renvScenarioA.airtop).2 =
        FetchOutcome.reading kvsScenarioA ∧
      (main_run renvScenarioA).1.filter isPatchEvent =
        [Event.patchSent
          [(FIELD_AVAILABLE, pyGetD kvsScenarioA "available_units"),
           (FIELD_BOOKED, pyGetD kvsScenarioA "booked_units"),
           (FIELD_OOS, pyGetD kvsScenarioA "out_of_service"),
           (FIELD_BLOCKED, pyGetD kvsScenarioA "blocked_dates")]] :=
  C1_passthrough_single_update renvScenarioA "sess-1" "win-1" 2 rawScenarioA kvsScenarioA
    (by decide) (by decide) rfl rfl rfl (by decide) (by decide)
    (by
      intro j hj1 hj2
      have hj : j = 1 := by omega
      subst hj
      exact ⟨"NO_DATA", rfl, Or.inl rfl⟩)
    rfl (by rfl) (by decide) (by decide)

/-- C2: if every attempt's response normalises to the `NO_DATA` sentinel,
extraction returns `None`, the backend update is never invoked, and the run
ends successfully. -/
theorem C2_sentinel_all_attempts_no_update
    (env : RunEnv) (sid wid : String)
    (hkey : ¬(env.airtop.airtopApiKey = "" ∨ env.airtop.airtopApiKey = "AIRTOP_API_KEY"))
    (hsess : env.airtop.sessionOutcome = SessionOutcome.returned none (some sid))
    (hsave : env.airtop.saveProfileOutcome = CallOutcome.completed)
    (hwin : env.airtop.windowOutcome = WindowOutcome.returned (some wid))
    (hall : ∀ a, 1 ≤ a → a ≤ maxAttempts → ∃ raw,
      env.airtop.pageQueryOutcome a = PageQueryOutcome.responded none raw ∧
      normalizeResponse raw = "NO_DATA") :
    (fetch_occupancy_from_cloudbeds env.airtop).2 = FetchOutcome.noData ∧
      (main_run env).1.filter isPatchEvent = [] ∧
      (main_run env).2 = RunOutcome.success := by
  obtain ⟨r1, hp1, hn1⟩ := hall 1 (by decide) (by decide)
  obtain ⟨r2, hp2, hn2⟩ := hall 2 (by decide) (by decide)
  obtain ⟨r3, hp3, hn3⟩ := hall 3 (by decide) (by decide)
  have hv1 := processAttempt_sentinel r1 hn1
  have hv2 := processAttempt_sentinel r2 hn2
  have hv3 := processAttempt_sentinel r3 hn3
  have hloop : runLoop env.airtop.pageQueryOutcome maxAttempts (attemptNumbers maxAttempts) =
      ([Event.pageQueryIssued 1, Event.sleepBackoff, Event.pageQueryIssued 2,
        Event.sleepBackoff, Event.pageQueryIssued 3], LoopOut.noData) := by
    rw [attemptNumbers_three,
      runLoop_skip _ 1 [2, 3] r1 hp1 (Or.inl hv1) (by decide),
      runLoop_skip _ 2 [3] r2 hp2 (Or.inl hv2) (by decide),
      runLoop_sentinel_last _ 3 [] r3 (by decide) hp3 hv3]
  have hfetch := fetch_runs_loop env.airtop sid wid hkey hsess hsave hwin
  refine ⟨by rw [hfetch, hloop]; rfl, ?_, ?_⟩
  · unfold main_run
    rw [hfetch, hloop]
    simp [setupEvents, List.filter_append, List.filter, isPatchEvent, liftLoopOut]
  · unfold main_run
    rw [hfetch, hloop]
    rfl

/-- Witness for C2 at end-to-end scenario B: all three attempts answer the
sentinel (with quote wrapping and whitespace on two of them). -/
def renvScenarioB : RunEnv :=
  { airtop :=
      { envBase with
        pageQueryOutcome := fun a =>
          if a = 1 then PageQueryOutcome.responded none "NO_DATA"
          else if a = 2 then PageQueryOutcome.responded none " \"NO_DATA\" "
          else PageQueryOutcome.responded none "  \"NO_DATA\"" }
    airtableApiKey := "patTESTKEY"
    patchStatus := 200
    patchRespText := "ok" }

/-- Witness for C2: scenario B ends successfully with no PATCH. -/
theorem C2_sentinel_all_attempts_no_update_witness :
    (fetch_occupancy_from_cloudbeds renvScenarioB.airtop).2 = FetchOutcome.noData ∧
      (main_run renvScenarioB).1.filter isPatchEvent = [] ∧
      (main_run renvScenarioB).2 = RunOutcome.success :=
  C2_sentinel_all_attempts_no_update renvScenarioB "sess-1" "win-1"
    (by decide) rfl rfl rfl
    (by
      intro a ha1 ha3
      have ha3n : a ≤ 3 := ha3
      interval_cases a
      · exact ⟨"NO_DATA", rfl, rfl⟩
      · exact ⟨" \"NO_DATA\" ", rfl, by rfl⟩
      · exact ⟨"  \"NO_DATA\"", rfl, by rfl⟩)

/-- C3: with an all-zero four-key payload on every attempt, extraction
raises the exhaustion error on the third attempt and never earlier: all
three page queries are issued, the first two attempts back off and retry
(two backoff sleeps), and the outcome is the all-zero fatal error. -/
theorem C3_allzero_raises_on_final_attempt_only
    (env : AirtopEnv) (sid wid : String)
    (hkey : ¬(env.airtopApiKey = "" ∨ env.airtopApiKey = "AIRTOP_API_KEY"))
    (hsess : env.sessionOutcome = SessionOutcome.returned none (some sid))
    (hsave : env.saveProfileOutcome = CallOutcome.completed)
    (hwin : env.windowOutcome = WindowOutcome.returned (some wid))
    (hall : ∀ a, 1 ≤ a → a ≤ maxAttempts → ∃ raw kvs,
      env.pageQueryOutcome a = PageQueryOutcome.responded none raw ∧
      jsonLoads (pyStrip raw) = Except.ok (Json.obj kvs) ∧
      missingKeys kvs = [] ∧ allValuesZero kvs = true) :
    (fetch_occupancy_from_cloudbeds env).2 =
        FetchOutcome.raised "Model returned 0 for all occupancy fields after multiple attempts." ∧
      (fetch_occupancy_from_cloudbeds env).1.filter isPageQueryEvent =
        [Event.pageQueryIssued 1, Event.pageQueryIssued 2, Event.pageQueryIssued 3] ∧
      ((fetch_occupancy_from_cloudbeds env).1.filter isSleepEvent).length = 2 := by
  obtain ⟨r1, k1, hp1, hj1, hm1, hz1⟩ := hall 1 (by decide) (by decide)
  obtain ⟨r2, k2, hp2, hj2, hm2, hz2⟩ := hall 2 (by decide) (by decide)
  obtain ⟨r3, k3, hp3, hj3, hm3, hz3⟩ := hall 3 (by decide) (by decide)
  have hv1 : processAttempt r1 = AttemptVerdict.allZero := by
    rw [processAttempt_of_parse r1 k1 hj1, if_pos hm1, if_pos hz1]
  have hv2 : processAttempt r2 = AttemptVerdict.allZero := by
    rw [processAttempt_of_parse r2 k2 hj2, if_pos hm2, if_pos hz2]
  have hv3 : processAttempt r3 = AttemptVerdict.allZero := by
    rw [processAttempt_of_parse r3 k3 hj3, if_pos hm3, if_pos hz3]
  have hloop : runLoop env.pageQueryOutcome maxAttempts (attemptNumbers maxAttempts) =
      ([Event.pageQueryIssued 1, Event.sleepBackoff, Event.pageQueryIssued 2,
        Event.sleepBackoff, Event.pageQueryIssued 3],
       LoopOut.raised "Model returned 0 for all occupancy fields after multiple attempts.") := by
    rw [attemptNumbers_three,
      runLoop_skip _ 1 [2, 3] r1 hp1 (Or.inr hv1) (by decide),
      runLoop_skip _ 2 [3] r2 hp2 (Or.inr hv2) (by decide),
      runLoop_allzero_last _ 3 [] r3 (by decide) hp3 hv3]
  have hfetch := fetch_runs_loop env sid wid hkey hsess hsave hwin
  rw [hfetch, hloop]
  exact ⟨rfl, rfl, rfl⟩

/-- The all-zero payload used by the C3 witness. -/
def rawAllZero : String :=
  "\x7b\"available_units\":0,\"booked_units\":0,\"out_of_service\":0,\"blocked_dates\":0\x7d"

/-- The parse of `rawAllZero`. -/
def kvsAllZero : List (String × Json) :=
  [("available_units", Json.num 0), ("booked_units", Json.num 0),
   ("out_of_service", Json.num 0), ("blocked_dates", Json.num 0)]

/-- Extractor environment answering the all-zero payload on every attempt. -/
def envAllZero : AirtopEnv :=
  { envBase with
    pageQueryOutcome := fun _ => PageQueryOutcome.responded none rawAllZero }

/-- Witness for C3. -/
theorem C3_allzero_raises_on_final_attempt_only_witness :
    (fetch_occupancy_from_cloudbeds envAllZero).2 =
        FetchOutcome.raised "Model returned 0 for all occupancy fields after multiple attempts." ∧
      (fetch_occupancy_from_cloudbeds envAllZero).1.filter isPageQueryEvent =
        [Event.pageQueryIssued 1, Event.pageQueryIssued 2, Event.pageQueryIssued 3] ∧
      ((fetch_occupancy_from_cloudbeds envAllZero).1.filter isSleepEvent).length = 2 :=
  C3_allzero_raises_on_final_attempt_only envAllZero "sess-1" "win-1"
    (by decide) rfl rfl rfl
    (by
      intro a ha1 ha3
      exact ⟨rawAllZero, kvsAllZero, rfl, by rfl, by decide, by decide⟩)

/-- C4: a malformed response is fatal on its first occurrence with no retry
consumed: whether the normalised response is neither the sentinel nor
brace-initial, or it parses as JSON but misses a required key, the
extraction raises at once — exactly the page queries up to that attempt are
issued and only the earlier attempts slept. -/
theorem C4_malformed_fatal_immediately
    (env : AirtopEnv) (sid wid : String) (i : Nat) (raw : String)
    (hkey : ¬(env.airtopApiKey = "" ∨ env.airtopApiKey = "AIRTOP_API_KEY"))
    (hsess : env.sessionOutcome = SessionOutcome.returned none (some sid))
    (hsave : env.saveProfileOutcome = CallOutcome.completed)
    (hwin : env.windowOutcome = WindowOutcome.returned (some wid))
    (h1 : 1 ≤ i) (h3 : i ≤ maxAttempts)
    (hprev : ∀ j, 1 ≤ j → j < i → continuesAttempt env.pageQueryOutcome j)
    (hresp : env.pageQueryOutcome i = PageQueryOutcome.responded none raw)
    (hbad : (¬ normalizeResponse raw = "NO_DATA" ∧ startsWithLbrace (pyStrip raw) = false) ∨
      (∃ kvs, jsonLoads (pyStrip raw) = Except.ok (Json.obj kvs) ∧ ¬ missingKeys kvs = [])) :
    (∃ m, (fetch_occupancy_from_cloudbeds env).2 = FetchOutcome.raised m) ∧
      (fetch_occupancy_from_cloudbeds env).1.filter isPageQueryEvent =
        (attemptNumbers i).map Event.pageQueryIssued ∧
      ((fetch_occupancy_from_cloudbeds env).1.filter isSleepEvent).length = i - 1 := by
  have hfat : ∃ m, processAttempt raw = AttemptVerdict.fatal m := by
    rcases hbad with ⟨hns, hsw⟩ | ⟨kvs, hj, hm⟩
    · exact ⟨_, processAttempt_fatal_nonjson raw hns hsw⟩
    · exact ⟨_, by rw [processAttempt_of_parse raw kvs hj, if_neg hm]⟩
  obtain ⟨m, hfatm⟩ := hfat
  have hfetch := fetch_runs_loop env sid wid hkey hsess hsave hwin
  have h3n : i ≤ 3 := h3
  interval_cases i
  · have hloop : runLoop env.pageQueryOutcome maxAttempts (attemptNumbers maxAttempts) =
        ([Event.pageQueryIssued 1], LoopOut.raised m) := by
      rw [attemptNumbers_three, runLoop_fatal _ 1 [2, 3] raw m hresp hfatm]
    rw [hfetch, hloop]
    exact ⟨⟨m, rfl⟩, rfl, rfl⟩
  · obtain ⟨q1, hq1, hw1⟩ := hprev 1 (by omega) (by omega)
    have hloop : runLoop env.pageQueryOutcome maxAttempts (attemptNumbers maxAttempts) =
        ([Event.pageQueryIssued 1, Event.sleepBackoff, Event.pageQueryIssued 2],
         LoopOut.raised m) := by
      rw [attemptNumbers_three, runLoop_skip _ 1 [2, 3] q1 hq1 hw1 (by decide),
        runLoop_fatal _ 2 [3] raw m hresp hfatm]
    rw [hfetch, hloop]
    exact ⟨⟨m, rfl⟩, rfl, rfl⟩
  · obtain ⟨q1, hq1, hw1⟩ := hprev 1 (by omega) (by omega)
    obtain ⟨q2, hq2, hw2⟩ := hprev 2 (by omega) (by omega)
    have hloop : runLoop env.pageQueryOutcome maxAttempts (attemptNumbers maxAttempts) =
        ([Event.pageQueryIssued 1, Event.sleepBackoff, Event.pageQueryIssued 2,
          Event.sleepBackoff, Event.pageQueryIssued 3],
         LoopOut.raised m) := by
      rw [attemptNumbers_three, runLoop_skip _ 1 [2, 3] q1 hq1 hw1 (by decide),
        runLoop_skip _ 2 [3] q2 hq2 hw2 (by decide),
        runLoop_fatal _ 3 [] raw m hresp hfatm]
    rw [hfetch, hloop]
    exact ⟨⟨m, rfl⟩, rfl, rfl⟩

/-- Extractor environment whose very first response is prose, neither the
sentinel nor JSON. -/
def envProse : AirtopEnv :=
  { envBase with
    pageQueryOutcome := fun _ =>
      PageQueryOutcome.responded none "I cannot see the widget" }

/-- Witness for C4 on the first attempt with a non-JSON, non-sentinel
response: the run raises with one page query and no backoff. -/
theorem C4_malformed_fatal_immediately_witness :
    (∃ m, (fetch_occupancy_from_cloudbeds envProse).2 = FetchOutcome.raised m) ∧
      (fetch_occupancy_from_cloudbeds envProse).1.filter isPageQueryEvent =
        (attemptNumbers 1).map Event.pageQueryIssued ∧
      ((fetch_occupancy_from_cloudbeds envProse).1.filter isSleepEvent).length = 1 - 1 :=
  C4_malformed_fatal_immediately envProse "sess-1" "win-1" 1 "I cannot see the widget"
    (by decide) rfl rfl rfl (by decide) (by decide)
    (by intro j hj1 hj2; omega)
    rfl
    (Or.inl ⟨by decide, by decide⟩)

/-- Extractor environment reproducing a run with `AIRTOP_API_KEY` absent
from the process environment, so the `os.getenv` default
`"YOUR_API_KEY_HERE"` of line 33 is in effect; the automation service then
rejects the bogus credential when the session is created. -/
def envPlaceholderAirtopKey : AirtopEnv :=
  { envBase with
    airtopApiKey := "YOUR_API_KEY_HERE"
    sessionOutcome := SessionOutcome.raised "airtop rejected credential" }

/-- C5 (code bug): with the placeholder default `"YOUR_API_KEY_HERE"` in
effect, the pre-flight guard of line 151 — which compares against the
literal `"AIRTOP_API_KEY"` instead of the actual default — does not fire:
the client is constructed and session creation is requested, and the run
fails only later with the remote error, not with the configuration error. -/
theorem C5_placeholder_key_passes_preflight_guard :
    (fetch_occupancy_from_cloudbeds envPlaceholderAirtopKey).1.take 2 =
        [Event.clientCreated, Event.sessionCreateRequested] ∧
      (fetch_occupancy_from_cloudbeds envPlaceholderAirtopKey).2 =
        FetchOutcome.raised "airtop rejected credential" ∧
      ¬("airtop rejected credential" = "AIRTOP_API_KEY is not set") :=
  ⟨rfl, rfl, by decide⟩

/-- The payload of the C6 counterexample: an extra fifth key and a
non-integer (string) value for `available_units`. -/
def rawExtraKey : String :=
  "\x7b\"available_units\":\"28\",\"booked_units\":8,\"out_of_service\":0,\"blocked_dates\":0,\"note\":\"hi\"\x7d"

/-- The parse of `rawExtraKey`. -/
def kvsExtraKey : List (String × Json) :=
  [("available_units", Json.str "28"), ("booked_units", Json.num 8),
   ("out_of_service", Json.num 0), ("blocked_dates", Json.num 0),
   ("note", Json.str "hi")]

/-- Extractor environment answering the extra-key payload. -/
def envExtraKey : AirtopEnv :=
  { envBase with
    pageQueryOutcome := fun _ => PageQueryOutcome.responded none rawExtraKey }

/-- C6 counterexample: a response with a fifth key and a string-valued
required key is accepted as a reading, so the extractor does not enforce
"exactly the four keys with integer values". -/
theorem C6_wire_contract_counterexample :
    (fetch_occupancy_from_cloudbeds envExtraKey).2 = FetchOutcome.reading kvsExtraKey ∧
      kvsExtraKey.map Prod.fst =
        ["available_units", "booked_units", "out_of_service", "blocked_dates", "note"] ∧
      dictGet kvsExtraKey "available_units" = some (Json.str "28") :=
  ⟨rfl, rfl, rfl⟩

/-- C6 amended: for any response, a reading is returned exactly when the
stripped response parses as a JSON object that contains all four required
keys (extra keys and non-integer values are allowed) and whose four required
values are not all zero; the reading is the parsed object itself. -/
theorem C6_acceptance_characterization (raw : String) (kvs : List (String × Json)) :
    processAttempt raw = AttemptVerdict.accept kvs ↔
      (jsonLoads (pyStrip raw) = Except.ok (Json.obj kvs) ∧
        missingKeys kvs = [] ∧ allValuesZero kvs = false) := by
  constructor
  · exact processAttempt_accept_inv raw kvs
  · rintro ⟨hj, hm, hz⟩
    rw [processAttempt_of_parse raw kvs hj, if_pos hm, if_neg (by simp [hz])]

/-- Extractor environment whose session creation raises. -/
def envSessionFail : AirtopEnv :=
  { envBase with sessionOutcome := SessionOutcome.raised "session create failed" }

/-- C7 counterexample: when session creation itself raises, the extraction
exits by raising and no termination request is ever made — so termination is
not requested on every raising exit path. -/
theorem C7_terminate_counterexample :
    (fetch_occupancy_from_cloudbeds envSessionFail).2 =
        FetchOutcome.raised "session create failed" ∧
      (fetch_occupancy_from_cloudbeds envSessionFail).1.filter isTerminateEvent = [] :=
  ⟨rfl, rfl⟩

/-- C7 amended: on every exit path reached after a session id has been
obtained — reading, no-data, or raise — termination is requested exactly
once, and a failure of the termination request never changes the outcome. -/
theorem C7_terminate_once_after_session
    (env : AirtopEnv) (sid : String) (t : CallOutcome)
    (hkey : ¬(env.airtopApiKey = "" ∨ env.airtopApiKey = "AIRTOP_API_KEY"))
    (hsess : env.sessionOutcome = SessionOutcome.returned none (some sid)) :
    (fetch_occupancy_from_cloudbeds env).1.filter isTerminateEvent =
        [Event.terminateRequested] ∧
      (fetch_occupancy_from_cloudbeds { env with terminateOutcome := t }).2 =
        (fetch_occupancy_from_cloudbeds env).2 := by
  constructor
  · unfold fetch_occupancy_from_cloudbeds fetchBody
    rw [if_neg hkey]
    simp only [hsess]
    cases hsave : env.saveProfileOutcome with
    | raised msg => simp [List.filter, isTerminateEvent]
    | completed =>
      cases hwin : env.windowOutcome with
      | raised msg => simp [setupEvents, List.filter, isTerminateEvent]
      | returned dw =>
        cases dw with
        | none => simp [setupEvents, List.filter, isTerminateEvent]
        | some wid =>
          have hnt := runLoop_filter_nil env.pageQueryOutcome isTerminateEvent
            (fun _ => rfl) rfl (attemptNumbers maxAttempts)
          simp [setupEvents, List.filter_append, hnt, List.filter, isTerminateEvent]
  · rfl

/-- Witness for the amended C7: a run with a failing termination call still
ends with the same outcome and one termination request. -/
theorem C7_terminate_once_after_session_witness :
    (fetch_occupancy_from_cloudbeds envBase).1.filter isTerminateEvent =
        [Event.terminateRequested] ∧
      (fetch_occupancy_from_cloudbeds
          { envBase with terminateOutcome := CallOutcome.raised "terminate failed" }).2 =
        (fetch_occupancy_from_cloudbeds envBase).2 :=
  C7_terminate_once_after_session envBase "sess-1"
    (CallOutcome.raised "terminate failed") (by decide) rfl

/-- C8: every reading the extractor returns satisfies the OccupancyReading
invariant — all four required keys present and the four values not all
simultaneously zero. -/
theorem C8_reading_invariant (env : AirtopEnv) (kvs : List (String × Json))
    (h : (fetch_occupancy_from_cloudbeds env).2 = FetchOutcome.reading kvs) :
    (∀ k ∈ expectedKeys, dictHasKey kvs k = true) ∧
      ¬(∀ k ∈ expectedKeys, pyEqZero (pyGetD kvs k) = true) := by
  obtain ⟨a, raw, hpq, hacc⟩ := fetch_reading_inv env kvs h
  obtain ⟨hj, hm, hz⟩ := processAttempt_accept_inv raw kvs hacc
  refine ⟨(missingKeys_nil_iff kvs).mp hm, ?_⟩
  intro hallz
  have hz2 : allValuesZero kvs = true := by
    unfold allValuesZero
    rw [List.all_eq_true]
    exact hallz
  rw [hz2] at hz
  exact absurd hz (by decide)

/-- Witness for C8 on the scenario-A reading. -/
theorem C8_reading_invariant_witness :
    (∀ k ∈ expectedKeys, dictHasKey kvsScenarioA k = true) ∧
      ¬(∀ k ∈ expectedKeys, pyEqZero (pyGetD kvsScenarioA k) = true) :=
  C8_reading_invariant envScenarioA kvsScenarioA (by rfl)

/-- C9 counterexample: a `304 Not Modified` PATCH response is not a success
(non-2xx), yet `raise_for_status` does not raise, so the update returns
normally — refuting "raises if and only if non-2xx". -/
theorem C9_not_modified_counterexample :
    (update_airtable kvsScenarioA "patTESTKEY" 304 "Not Modified").2 = UpdateOutcome.ok ∧
      ¬(200 ≤ 304 ∧ 304 < 300) :=
  ⟨rfl, by decide⟩

/-- C9 amended: the update raises exactly for 4xx/5xx statuses (so 2xx and
3xx, e.g. 304, return without raising), and on a 4xx/5xx it logs the
response body and re-raises with no retry. -/
theorem C9_update_raises_iff_4xx5xx
    (occ : List (String × Json)) (key respText : String) (status : Nat)
    (hkey : ¬(key = "" ∨ key = "YOUR_AIRTABLE_API_KEY")) :
    ((update_airtable occ key status respText).2 = UpdateOutcome.ok ↔
      ¬(400 ≤ status ∧ status < 600)) ∧
    (400 ≤ status ∧ status < 600 →
      (update_airtable occ key status respText).2 = UpdateOutcome.raised "HTTPError" ∧
      (update_airtable occ key status respText).1.filter isBodyLogEvent =
        [Event.responseBodyLogged respText]) := by
  unfold update_airtable
  rw [if_neg hkey]
  by_cases hst : raiseForStatusRaises status = true
  · have hs2 : 400 ≤ status ∧ status < 600 := by
      unfold raiseForStatusRaises at hst
      simp only [Bool.and_eq_true, decide_eq_true_eq] at hst
      exact hst
    rw [if_pos hst]
    constructor
    · constructor
      · intro hok; simp at hok
      · intro hns; exact absurd hs2 hns
    · intro _
      exact ⟨rfl, by simp [List.filter, isBodyLogEvent]⟩
  · have hs2 : ¬(400 ≤ status ∧ status < 600) := by
      intro hc
      exact hst (by unfold raiseForStatusRaises; simp [hc.1, hc.2])
    rw [if_neg hst]
    exact ⟨⟨fun _ => hs2, fun _ => rfl⟩, fun hc => absurd hc hs2⟩

/-- Witness for the amended C9 at a 422 response. -/
theorem C9_update_raises_iff_4xx5xx_witness :
    ((update_airtable kvsScenarioA "patTESTKEY" 422 "error body").2 = UpdateOutcome.ok ↔
      ¬(400 ≤ 422 ∧ 422 < 600)) ∧
    (400 ≤ 422 ∧ 422 < 600 →
      (update_airtable kvsScenarioA "patTESTKEY" 422 "error body").2 =
        UpdateOutcome.raised "HTTPError" ∧
      (update_airtable kvsScenarioA "patTESTKEY" 422 "error body").1.filter isBodyLogEvent =
        [Event.responseBodyLogged "error body"]) :=
  C9_update_raises_iff_4xx5xx kvsScenarioA "patTESTKEY" "error body" 422 (by decide)

/-- C10: for any input dictionary the updater builds a `fields` object with
exactly the four configured field names, each value a `dict.get` lookup that
yields `null` when the key is absent; the update never raises because of the
input's shape — its outcome is the same for any two input dictionaries, and
with a valid key and a non-error status it returns normally. -/
theorem C10_payload_exact_fields
    (occ occ2 : List (String × Json)) (key respText : String) (status : Nat)
    (hkey : ¬(key = "" ∨ key = "YOUR_AIRTABLE_API_KEY")) :
    (airtablePayloadFields occ).map Prod.fst =
        [FIELD_AVAILABLE, FIELD_BOOKED, FIELD_OOS, FIELD_BLOCKED] ∧
      airtablePayloadFields occ =
        [(FIELD_AVAILABLE, (dictGet occ "available_units").getD Json.null),
         (FIELD_BOOKED, (dictGet occ "booked_units").getD Json.null),
         (FIELD_OOS, (dictGet occ "out_of_service").getD Json.null),
         (FIELD_BLOCKED, (dictGet occ "blocked_dates").getD Json.null)] ∧
      (update_airtable occ key status respText).2 =
        (update_airtable occ2 key status respText).2 ∧
      (¬(400 ≤ status ∧ status < 600) →
        (update_airtable occ key status respText).2 = UpdateOutcome.ok) := by
  refine ⟨rfl, rfl, ?_, ?_⟩
  · unfold update_airtable
    by_cases hst : raiseForStatusRaises status = true
    · simp [hkey, hst]
    · simp [hkey, hst]
  · intro hns
    unfold update_airtable
    have hst : ¬ raiseForStatusRaises status = true := by
      intro hc
      unfold raiseForStatusRaises at hc
      simp only [Bool.and_eq_true, decide_eq_true_eq] at hc
      exact hns hc
    simp [hkey, hst]

/-- Witness for C10 on an input dictionary that misses two required keys and
carries an extra one: the payload still has exactly the four field names and
the update succeeds. -/
theorem C10_payload_exact_fields_witness :
    (airtablePayloadFields [("available_units", Json.num 7), ("extra", Json.num 1)]).map Prod.fst =
        [FIELD_AVAILABLE, FIELD_BOOKED, FIELD_OOS, FIELD_BLOCKED] ∧
      airtablePayloadFields [("available_units", Json.num 7), ("extra", Json.num 1)] =
        [(FIELD_AVAILABLE,
            (dictGet [("available_units", Json.num 7), ("extra", Json.num 1)]
              "available_units").getD Json.null),
         (FIELD_BOOKED,
            (dictGet [("available_units", Json.num 7), ("extra", Json.num 1)]
              "booked_units").getD Json.null),
         (FIELD_OOS,
            (dictGet [("available_units", Json.num 7), ("extra", Json.num 1)]
              "out_of_service").getD Json.null),
         (FIELD_BLOCKED,
            (dictGet [("available_units", Json.num 7), ("extra", Json.num 1)]
              "blocked_dates").getD Json.null)] ∧
      (update_airtable [("available_units", Json.num 7), ("extra", Json.num 1)]
          "patTESTKEY" 200 "ok").2 =
        (update_airtable [] "patTESTKEY" 200 "ok").2 ∧
      (¬(400 ≤ 200 ∧ 200 < 600) →
        (update_airtable [("available_units", Json.num 7), ("extra", Json.num 1)]
            "patTESTKEY" 200 "ok").2 = UpdateOutcome.ok) :=
  C10_payload_exact_fields [("available_units", Json.num 7), ("extra", Json.num 1)] []
    "patTESTKEY" "ok" 200 (by decide)
